import Mathlib

/-!
Verification development for the OpenPay testnet A2U (app-to-user) payout
integration.  The repository contains several near-duplicate implementations
of the payout orchestration:

  * the Express server src/server/index.js (POST /api/a2u-withdraw),
    embedded below as expressWithdraw;
  * a first, earlier Express variant (first document of src/unnamed/part_001),
    embedded as expressWithdrawV1;
  * the PiNetworkService class in
    src/src/integrations/pi-network/pi-service.ts, whose
    completeA2UPaymentFlow and validatePaymentData are embedded directly;
  * a Deno edge function in two versions (src/unnamed/part_002): the second
    version carries the a2u_create conflict-retry logic (edgeCreate), the
    getPaymentWithRetry helper, the supportedNetworks guard of a2u_submit
    (a2uSubmitV2) and safeUpsertA2UPayout; the first version of a2u_submit
    (a2uSubmitV1) fetches the payment once and goes straight to the
    Stellar builder buildAndSubmitA2U.

All remote interactions (Pi platform API, Horizon ledger node, Supabase
store) are modelled by oracles: structures of functions giving the outcome
of each external call.  Every flow returns the list of external calls it
issued (in order) together with its result, so temporal claims become
statements about the trace.

JavaScript value semantics that the validation code depends on (Number
coercion producing NaN, truthiness, NaN comparisons being false) are
modelled explicitly: a JS number is an Option over the rationals, with
none playing the role of NaN.  The numeric-string parser covers plain
decimal literals (optional sign and fraction); exponents, hexadecimal and
infinities are outside the fragment exercised here.
-/

/-- A JavaScript number: none stands for NaN. -/
abbrev JSNum := Option ℚ

/-- A JavaScript value, as far as the withdraw request body needs:
a string, a number (possibly NaN), or undefined. -/
inductive JSVal where
  | vStr (s : String)
  | vNum (n : JSNum)
  | vUndef
deriving DecidableEq

/-- Numeric value of a list of decimal digit characters. -/
def digitsVal (cs : List Char) : ℚ :=
  cs.foldl (fun a c => 10 * a + ((c.toNat - 48 : ℕ) : ℚ)) 0

/-- Number(s) for a string s: empty string is 0, a decimal literal with
optional sign and fraction parses to its value, anything else is NaN. -/
def strToNumber (s : String) : JSNum :=
  let cs := s.data
  if cs = [] then some 0
  else
    let signed : ℚ × List Char :=
      match cs with
      | '-' :: t => (-1, t)
      | '+' :: t => (1, t)
      | t => (1, t)
    let intPart := signed.2.takeWhile Char.isDigit
    let rest := signed.2.dropWhile Char.isDigit
    match rest with
    | [] => if intPart = [] then none else some (signed.1 * digitsVal intPart)
    | '.' :: frac =>
      if frac.all Char.isDigit && !(intPart = [] && frac = []) then
        some (signed.1 * (digitsVal intPart + digitsVal frac / (10 : ℚ) ^ frac.length))
      else none
    | _ => none

/-- Number(v) coercion of a request-body value. -/
def toNumber : JSVal → JSNum
  | .vStr s => strToNumber s
  | .vNum n => n
  | .vUndef => none

/-- JS truthiness test, negated: empty string, 0, NaN and undefined are falsy. -/
def jsFalsy : JSVal → Bool
  | .vStr s => s = ""
  | .vNum none => true
  | .vNum (some q) => q = 0
  | .vUndef => true

/-- JS comparison n less-or-equal 0; false when n is NaN. -/
def jsLeZero : JSNum → Bool
  | none => false
  | some q => q ≤ 0

/-- JS comparison n greater than 1; false when n is NaN. -/
def jsGtOne : JSNum → Bool
  | none => false
  | some q => 1 < q

/-- Number.isFinite; infinities are outside the modelled fragment. -/
def jsFinite : JSNum → Bool
  | none => false
  | some _ => true

/-- JS trim: drop whitespace from both ends. -/
def jsTrim (s : String) : String :=
  ⟨((s.data.dropWhile Char.isWhitespace).reverse.dropWhile Char.isWhitespace).reverse⟩

/-- JS a || b on two optional strings followed by use as a string:
the first operand wins when it is a truthy (nonempty) string. -/
def jsOrStr (a b : Option String) : String :=
  match a with
  | some s => if s ≠ "" then s else (b.getD "")
  | none => b.getD ""

/-- Equality on Except results is decidable componentwise; used to settle
concrete runs by evaluation. -/
instance {e a : Type} [DecidableEq e] [DecidableEq a] : DecidableEq (Except e a) := fun x y =>
  match x, y with
  | .ok v, .ok w => if h : v = w then isTrue (by rw [h]) else isFalse (by intro hc; cases hc; exact h rfl)
  | .ok _, .error _ => isFalse (by intro hc; cases hc)
  | .error _, .ok _ => isFalse (by intro hc; cases hc)
  | .error v, .error w => if h : v = w then isTrue (by rw [h]) else isFalse (by intro hc; cases hc; exact h rfl)

/-- The transaction sub-record of a remote payment (pi-backend PaymentDTO). -/
structure PiTransaction where
  txid : String
  verified : Bool
deriving DecidableEq

/-- A remote payment record as the SDK and the edge functions see it
(identifier, addresses, network, optional transaction).  The status
boolean sub-record is never read by any embedded code path and is elided. -/
structure PaymentDTO where
  identifier : String
  user_uid : String
  amount : ℚ
  memo : String
  from_address : String
  to_address : String
  network : String
  transaction : Option PiTransaction
deriving DecidableEq

/-- A raw payment object as the edge function receives it from the Pi API:
the id may sit under several keys (resolvePaymentId probes them in order). -/
structure PaymentObj where
  identifier : Option String := none
  id : Option String := none
  payment_identifier : Option String := none
  paymentId : Option String := none
  payment_id : Option String := none
  transaction : Option PiTransaction := none
deriving DecidableEq

/-- Input of createPayment (pi-backend PaymentArgs); metadata is modelled by
its truthiness only, which is all validatePaymentData inspects. -/
structure PaymentArgs where
  amount : ℚ
  memo : String
  metadata : Bool := true
  uid : String
deriving DecidableEq

/-- A row written to the pi_a2u_payouts table.  Absent fields are none. -/
structure A2URecord where
  payment_id : String
  pi_uid : Option String := none
  amount : Option JSNum := none
  memo : Option String := none
  txid : Option String := none
  status : String
  updated_at : Option String := none
deriving DecidableEq

/-- A Stellar transaction as built by buildAndSubmitA2U. -/
structure LedgerTx where
  sourceAccount : String
  sequence : ℕ
  fee : ℕ
  networkPassphrase : String
  timebounds : ℕ × ℕ
  destination : String
  amount : ℚ
  memoText : String
  signedBy : String
deriving DecidableEq

/-- Horizon submitTransaction response: hash and id fields (either may
be missing depending on the Horizon version). -/
structure SubmitResult where
  hash : Option String := none
  id : Option String := none
deriving DecidableEq

/-- A loaded Horizon account. -/
structure HAccount where
  accountId : String
  sequence : ℕ
deriving DecidableEq

/-- One external call issued by a flow, in issue order.  Platform calls,
store upserts, delays and ledger-node calls share one trace type. -/
inductive Call where
  | listIncomplete
  | createP (amount : JSNum) (memo uid : String)
  | submitP (paymentId : String)
  | completeP (paymentId txid : String)
  | cancelP (paymentId : String)
  | getP (paymentId : String)
  | sleepMs (ms : ℕ)
  | upsert (payload : A2URecord) (onConflict : String)
  | loadAccount (url addr : String)
  | fetchBaseFee (url : String)
  | fetchTimebounds (url : String) (secs : ℕ)
  | submitTx (url : String) (tx : LedgerTx)
deriving DecidableEq

/-- Identifiers of the cancel calls in a trace, in order. -/
def cancelsIn (tr : List Call) : List String :=
  tr.filterMap fun c => match c with | .cancelP i => some i | _ => none

/-- The (paymentId, txid) pairs of the complete calls in a trace. -/
def completesIn (tr : List Call) : List (String × String) :=
  tr.filterMap fun c => match c with | .completeP i t => some (i, t) | _ => none

/-- Number of create calls in a trace. -/
def createsCount (tr : List Call) : ℕ :=
  (tr.filterMap fun c => match c with | .createP a m u => some (a, m, u) | _ => none).length

/-- The upsert payloads of a trace, in order. -/
def upsertsIn (tr : List Call) : List A2URecord :=
  tr.filterMap fun c => match c with | .upsert r _ => some r | _ => none

/-- An error surfaced by a remote platform call or a store write.
status models error.response.status (SDK errors) or the HTTP status of
PiApiError; dataError and dataPayment model the error payload fields the
conflict-retry logic inspects; isApi distinguishes PiApiError instances. -/
structure PiErr where
  message : String
  status : Option ℕ := none
  dataError : Option String := none
  dataPayment : Option PaymentObj := none
  isApi : Bool := true
deriving DecidableEq

/-- Response of the Express withdraw handler, reduced to what the claims
need: success carries paymentId, txid and the completed remote payment;
failure carries the HTTP status and the error message. -/
inductive WResp where
  | ok (paymentId txid : String) (payment : PaymentDTO)
  | err (status : ℕ) (msg : String)
deriving DecidableEq

/-- Error response of the Express catch block:
status = error.response.status || 500, message = error.message. -/
def errResp (e : PiErr) : WResp := WResp.err (e.status.getD 500) e.message

/-- Outcomes of the external calls the Express server makes.  The oracle is
a function of the call arguments, so a repeated identical call repeats its
outcome; the flows below consult it exactly where the source awaits. -/
structure ExpressOracle where
  incompleteRes : Except PiErr (List PaymentDTO)
  createRes : JSNum → String → String → Except PiErr String
  submitRes : String → Except PiErr String
  completeRes : String → String → Except PiErr PaymentDTO
  cancelRes : String → Except PiErr PaymentDTO
  upsertRes : A2URecord → Except PiErr Unit

/-- The cleanup call for one stale payment: complete it when its
transaction carries a (truthy) txid, cancel it otherwise. -/
def cleanupCall (p : PaymentDTO) : Call :=
  match p.transaction with
  | some t => if t.txid ≠ "" then Call.completeP p.identifier t.txid else Call.cancelP p.identifier
  | none => Call.cancelP p.identifier

/-- Cleanup calls for a stale-payment list.  In server/index.js each
iteration is wrapped in its own try/catch whose handler only logs, so the
outcomes of these calls are never consulted: only the calls themselves
remain observable. -/
def cleanupCalls (ps : List PaymentDTO) : List Call := ps.map cleanupCall

/-- The create-through-complete tail of the Express withdraw handler
(steps 1 to 4 of server/index.js): create, upsert created, fixed 1000 ms
sleep, submit, upsert submitted, complete, upsert completed.  Any failure
is surfaced by the surrounding catch via errResp; there is no cancel. -/
def withdrawTail (o : ExpressOracle) (a : JSNum) (memo uid : String) : List Call × WResp :=
  match o.createRes a memo uid with
  | .error e => ([Call.createP a memo uid], errResp e)
  | .ok pid =>
    let rec1 : A2URecord :=
      { payment_id := pid, pi_uid := some uid, amount := some a, memo := some memo, status := "created" }
    match o.upsertRes rec1 with
    | .error e => ([Call.createP a memo uid, Call.upsert rec1 "payment_id"], errResp e)
    | .ok _ =>
      match o.submitRes pid with
      | .error e =>
        ([Call.createP a memo uid, Call.upsert rec1 "payment_id", Call.sleepMs 1000,
          Call.submitP pid], errResp e)
      | .ok txid =>
        let rec2 : A2URecord := { payment_id := pid, txid := some txid, status := "submitted" }
        match o.upsertRes rec2 with
        | .error e =>
          ([Call.createP a memo uid, Call.upsert rec1 "payment_id", Call.sleepMs 1000,
            Call.submitP pid, Call.upsert rec2 "payment_id"], errResp e)
        | .ok _ =>
          match o.completeRes pid txid with
          | .error e =>
            ([Call.createP a memo uid, Call.upsert rec1 "payment_id", Call.sleepMs 1000,
              Call.submitP pid, Call.upsert rec2 "payment_id", Call.completeP pid txid], errResp e)
          | .ok pay =>
            let rec3 : A2URecord := { payment_id := pid, txid := some txid, status := "completed" }
            let full := [Call.createP a memo uid, Call.upsert rec1 "payment_id", Call.sleepMs 1000,
              Call.submitP pid, Call.upsert rec2 "payment_id", Call.completeP pid txid,
              Call.upsert rec3 "payment_id"]
            match o.upsertRes rec3 with
            | .error e => (full, errResp e)
            | .ok _ => (full, WResp.ok pid txid pay)

/-- The withdraw request body; a missing field is the empty string
(strings) or vUndef (the amount). -/
structure WithdrawBody where
  uid : String
  amount : JSVal
  memo : String
deriving DecidableEq

/-- POST /api/a2u-withdraw of src/server/index.js, with the environment
keys configured.  Validation (uid, amount truthy and positive, memo,
testnet cap of 1) precedes every external call; then the incomplete-payment
cleanup loop over all stale payments, then the payout tail. -/
def expressWithdraw (o : ExpressOracle) (b : WithdrawBody) : List Call × WResp :=
  if b.uid = "" then ([], WResp.err 400 "Missing uid")
  else if jsFalsy b.amount || jsLeZero (toNumber b.amount) then ([], WResp.err 400 "Invalid amount")
  else if b.memo = "" then ([], WResp.err 400 "Missing memo")
  else if jsGtOne (toNumber b.amount) then ([], WResp.err 400 "Testnet payments cannot exceed 1 Pi")
  else
    match o.incompleteRes with
    | .error e => ([Call.listIncomplete], errResp e)
    | .ok ps =>
      let t := withdrawTail o (toNumber b.amount) b.memo b.uid
      (Call.listIncomplete :: (cleanupCalls ps ++ t.1), t.2)

/-- Cleanup outcome for the single stale payment the first server variant
handles: the complete or cancel result, not caught by any local handler. -/
def v1CleanupRes (o : ExpressOracle) (p : PaymentDTO) : Except PiErr Unit :=
  match p.transaction with
  | some t =>
    if t.txid ≠ "" then (o.completeRes p.identifier t.txid).map fun _ => ()
    else (o.cancelRes p.identifier).map fun _ => ()
  | none => (o.cancelRes p.identifier).map fun _ => ()

/-- POST /api/a2u-withdraw of the first server variant (first document of
src/unnamed/part_001): validates only uid and amount positivity (no memo
check, no testnet cap), defaults an empty memo to "A2U payout", cleans up
only the first stale payment without catching its failure, then runs the
same payout tail. -/
def expressWithdrawV1 (o : ExpressOracle) (b : WithdrawBody) : List Call × WResp :=
  if b.uid = "" then ([], WResp.err 400 "Missing uid")
  else if jsFalsy b.amount || jsLeZero (toNumber b.amount) then ([], WResp.err 400 "Invalid amount")
  else
    let memo := if b.memo = "" then "A2U payout" else b.memo
    match o.incompleteRes with
    | .error e => ([Call.listIncomplete], errResp e)
    | .ok ps =>
      match ps with
      | [] =>
        let t := withdrawTail o (toNumber b.amount) memo b.uid
        (Call.listIncomplete :: t.1, t.2)
      | p :: _ =>
        match v1CleanupRes o p with
        | .error e => ([Call.listIncomplete, cleanupCall p], errResp e)
        | .ok _ =>
          let t := withdrawTail o (toNumber b.amount) memo b.uid
          (Call.listIncomplete :: cleanupCall p :: t.1, t.2)

/-- Outcomes of the raw pi-backend SDK calls the PiNetworkService makes.
Each service method wraps a raw failure into a message-prefixed Error;
the raw errors are opaque strings here. -/
structure SvcOracle where
  incompleteRes : Except String (List PaymentDTO)
  createRes : PaymentArgs → Except String String
  submitRes : String → Except String String
  completeRes : String → String → Except String PaymentDTO
  cancelRes : String → Except String PaymentDTO

/-- Trace of PiNetworkService.cleanupIncompletePayments: list the
incomplete payments (its own failure is caught and logged), then complete
or cancel each one, every iteration in its own try/catch. -/
def svcCleanupTrace (o : SvcOracle) : List Call :=
  match o.incompleteRes with
  | .error _ => [Call.listIncomplete]
  | .ok ps => Call.listIncomplete :: cleanupCalls ps

/-- PiNetworkService.completeA2UPaymentFlow
(src/src/integrations/pi-network/pi-service.ts): cleanup, create, submit,
complete.  Its catch cancels the created payment exactly when a paymentId
is set (truthy) and no txid is set (the JS variables start as null and an
empty-string result is falsy), swallows the cancellation outcome, and
rethrows the original wrapped error. -/
def completeA2UPaymentFlow (o : SvcOracle) (req : PaymentArgs) : List Call × Except String PaymentDTO :=
  let ctr := svcCleanupTrace o
  let cCall := Call.createP (some req.amount) req.memo req.uid
  match o.createRes req with
  | .error e => (ctr ++ [cCall], .error ("Failed to create payment: " ++ e))
  | .ok pid =>
    match o.submitRes pid with
    | .error e =>
      let base := ctr ++ [cCall, Call.submitP pid]
      if pid ≠ "" then (base ++ [Call.cancelP pid], .error ("Failed to submit payment: " ++ e))
      else (base, .error ("Failed to submit payment: " ++ e))
    | .ok t =>
      match o.completeRes pid t with
      | .error e =>
        let base := ctr ++ [cCall, Call.submitP pid, Call.completeP pid t]
        if pid ≠ "" ∧ t = "" then (base ++ [Call.cancelP pid], .error ("Failed to complete payment: " ++ e))
        else (base, .error ("Failed to complete payment: " ++ e))
      | .ok pay => (ctr ++ [cCall, Call.submitP pid, Call.completeP pid t], .ok pay)

/-- PiNetworkService.validatePaymentData: amount positive, uid and memo
nonblank, metadata present, testnet cap of 1 Pi.  The input is typed as a
number, so the NaN coercion cases of the HTTP layer do not arise here. -/
def validatePaymentData (d : PaymentArgs) : Except String Unit :=
  if d.amount ≤ 0 then .error "Amount must be greater than 0"
  else if jsTrim d.uid = "" then .error "User UID is required"
  else if jsTrim d.memo = "" then .error "Memo is required"
  else if !d.metadata then .error "Metadata is required"
  else if 1 < d.amount then .error "Testnet payments cannot exceed 1 Pi"
  else .ok ()

/-- resolvePaymentId of the edge function: probe identifier, id,
payment_identifier, paymentId and payment_id in order with JS ||
(a present empty string is falsy and skipped), then trim; a non-string
candidate resolves to the empty string. -/
def resolvePaymentId (p : Option PaymentObj) : String :=
  match p with
  | none => ""
  | some p =>
    let cand := jsOrStr p.identifier (some (jsOrStr p.id (some (jsOrStr p.payment_identifier
      (some (jsOrStr p.paymentId p.payment_id))))))
    jsTrim cand

/-- The payment payload of the a2u_create action, after Number coercion of
the amount (so possibly NaN) and before trimming of uid and memo. -/
structure EdgeBody where
  amount : JSNum
  uid : String
  memo : String
deriving DecidableEq

/-- Outcomes of the Pi API calls the a2u_create action makes.  The action
performs at most two creates, modelled as the first and second create
outcome; the cancel outcome is a function of the cancelled id. -/
structure EdgeOracle where
  incompleteRes : Except PiErr (List PaymentObj)
  cancelRes : String → Except PiErr Unit
  create1 : Except PiErr PaymentObj
  create2 : Except PiErr PaymentObj
  now : String

/-- Error response of the edge function outer catch: PiApiError instances
become status-400 responses carrying their message, anything else is 500. -/
def edgeErrResp (e : PiErr) : ℕ × String := (if e.isApi then 400 else 500, e.message)

/-- Create phase of a2u_create: first create; on a PiApiError whose payload
is ongoing_payment_found with a payment object, cancel the resolved stuck
payment (when an id resolves) and retry the create exactly once, any other
failure rethrown.  tr is the trace accumulated by the cleanup pre-step. -/
def edgeCreatePhase (o : EdgeOracle) (b : EdgeBody) (tr : List Call) : List Call × Except (ℕ × String) PaymentObj :=
  let cCall := Call.createP b.amount (jsTrim b.memo) (jsTrim b.uid)
  let finish := fun (tr2 : List Call) (d : PaymentObj) =>
    let cid := resolvePaymentId (some d)
    if cid ≠ "" then
      let payload : A2URecord :=
        { payment_id := cid, pi_uid := some (jsTrim b.uid), amount := some b.amount,
          memo := some (jsTrim b.memo), status := "created", updated_at := some o.now }
      (tr2 ++ [Call.upsert payload "payment_id"], Except.ok d)
    else (tr2, Except.ok d)
  match o.create1 with
  | .ok d => finish (tr ++ [cCall]) d
  | .error e =>
    if e.isApi && e.dataError == some "ongoing_payment_found" && e.dataPayment.isSome then
      let stuck := resolvePaymentId e.dataPayment
      if stuck ≠ "" then
        match o.cancelRes stuck with
        | .error e2 => (tr ++ [cCall, Call.cancelP stuck], .error (edgeErrResp e2))
        | .ok _ =>
          match o.create2 with
          | .error e3 => (tr ++ [cCall, Call.cancelP stuck, cCall], .error (edgeErrResp e3))
          | .ok d => finish (tr ++ [cCall, Call.cancelP stuck, cCall]) d
      else
        match o.create2 with
        | .error e3 => (tr ++ [cCall, cCall], .error (edgeErrResp e3))
        | .ok d => finish (tr ++ [cCall, cCall]) d
    else (tr ++ [cCall], .error (edgeErrResp e))

/-- The a2u_create action of the second edge-function version
(src/unnamed/part_002): validate the payload, list incomplete payments,
cancel only the first one (whatever its transaction state) with no local
catch around that cancel, then the create phase with the single
conflict retry.  The created row is persisted via the safe upsert when an
id resolves from the created payment. -/
def edgeCreate (o : EdgeOracle) (b : EdgeBody) : List Call × Except (ℕ × String) PaymentObj :=
  if !jsFinite b.amount || jsLeZero b.amount then ([], .error (400, "Invalid payment.amount"))
  else if jsTrim b.uid = "" then ([], .error (400, "Missing payment.uid"))
  else if jsTrim b.memo = "" then ([], .error (400, "Missing payment.memo"))
  else
    match o.incompleteRes with
    | .error e => ([Call.listIncomplete], .error (edgeErrResp e))
    | .ok ps =>
      match ps with
      | [] => edgeCreatePhase o b [Call.listIncomplete]
      | p :: _ =>
        let oldId := resolvePaymentId (some p)
        if oldId ≠ "" then
          match o.cancelRes oldId with
          | .error e => ([Call.listIncomplete, Call.cancelP oldId], .error (edgeErrResp e))
          | .ok _ => edgeCreatePhase o b [Call.listIncomplete, Call.cancelP oldId]
        else edgeCreatePhase o b [Call.listIncomplete]

/-- Loop body of getPaymentWithRetry: remaining is the number of attempts
still allowed, attempt the current zero-based attempt index.  The read of
the final allowed attempt rethrows its own error; earlier failures sleep
for delayMs and retry.  The post-loop throw (reachable only when the
attempt budget is zero) is kept for fidelity. -/
def retryGo (getRes : ℕ → Except PiErr PaymentDTO) (pid : String) (delayMs : ℕ) :
    ℕ → ℕ → List Call × Except PiErr PaymentDTO
  | 0, _ => ([], .error { message := "Payment not found after retries", isApi := false })
  | remaining + 1, attempt =>
    match getRes attempt with
    | .ok p => ([Call.getP pid], .ok p)
    | .error e =>
      if remaining = 0 then ([Call.getP pid], .error e)
      else
        let t := retryGo getRes pid delayMs remaining (attempt + 1)
        (Call.getP pid :: Call.sleepMs delayMs :: t.1, t.2)

/-- getPaymentWithRetry of the second edge-function version: re-read the
remote payment up to attempts times with a fixed delayMs delay between
attempts (source defaults: 5 attempts, 2000 ms). -/
def getPaymentWithRetry (getRes : ℕ → Except PiErr PaymentDTO) (pid : String)
    (attempts delayMs : ℕ) : List Call × Except PiErr PaymentDTO :=
  retryGo getRes pid delayMs attempts 0

/-- HORIZON_URLS of the edge function: the two known network endpoints. -/
def HORIZON_URLS (n : String) : Option String :=
  if n = "Pi Network" then some "https://api.mainnet.minepi.com"
  else if n = "Pi Testnet" then some "https://api.testnet.minepi.com"
  else none

/-- Endpoint selection of buildAndSubmitA2U:
HORIZON_URLS[payment.network] || HORIZON_URLS["Pi Testnet"] — an unmapped
network name silently falls back to the Pi Testnet endpoint. -/
def horizonUrlFor (n : String) : String :=
  (HORIZON_URLS n).getD "https://api.testnet.minepi.com"

/-- supportedNetworks of the second a2u_submit version. -/
def supportedNetworks : List String := ["Pi Network", "Pi Testnet"]

/-- Outcomes of the Horizon ledger-node calls, plus the public key the
Stellar keypair derives from a wallet seed. -/
structure LedgerOracle where
  derivePub : String → String
  loadAccountRes : String → String → Except String HAccount
  baseFeeRes : String → Except String ℕ
  timeboundsRes : String → ℕ → Except String (ℕ × ℕ)
  submitTxRes : String → LedgerTx → Except String SubmitResult

/-- The address-mismatch error text of buildAndSubmitA2U. -/
def addressMismatchMsg (fromAddr pub : String) : String :=
  "Wallet private seed does not match the payment from_address. " ++
    "Expected public key for from_address " ++ fromAddr ++
    ", but seed resolves to " ++ pub ++ "."

/-- buildAndSubmitA2U (src/unnamed/part_002): derive the wallet public key,
fail on a from_address mismatch before any network call, resolve the
Horizon endpoint (with the testnet fallback), load the account, fetch the
base fee and 180-second timebounds, build and sign the payment transaction
with the payment identifier as memo, submit it, and extract the txid from
the hash or id field of the response (the first edge-function version reads
only the id field; no embedded claim depends on the difference). -/
def buildAndSubmitA2U (o : LedgerOracle) (payment : PaymentDTO) (seed : String) :
    List Call × Except String String :=
  let pub := o.derivePub seed
  if payment.from_address ≠ pub then
    ([], .error (addressMismatchMsg payment.from_address pub))
  else
    let url := horizonUrlFor payment.network
    match o.loadAccountRes url pub with
    | .error e => ([Call.loadAccount url pub], .error e)
    | .ok acct =>
      match o.baseFeeRes url with
      | .error e => ([Call.loadAccount url pub, Call.fetchBaseFee url], .error e)
      | .ok fee =>
        match o.timeboundsRes url 180 with
        | .error e =>
          ([Call.loadAccount url pub, Call.fetchBaseFee url, Call.fetchTimebounds url 180], .error e)
        | .ok tb =>
          let tx : LedgerTx :=
            { sourceAccount := acct.accountId, sequence := acct.sequence, fee := fee,
              networkPassphrase := payment.network, timebounds := tb,
              destination := payment.to_address, amount := payment.amount,
              memoText := payment.identifier, signedBy := pub }
          let calls := [Call.loadAccount url pub, Call.fetchBaseFee url,
            Call.fetchTimebounds url 180, Call.submitTx url tx]
          match o.submitTxRes url tx with
          | .error e => (calls, .error e)
          | .ok r =>
            let t := jsOrStr r.hash r.id
            if t = "" then (calls, .error "Horizon did not return a transaction id (hash/id)")
            else (calls, .ok t)

/-- The a2u_submit action of the first edge-function version: fetch the
payment once (no retry, no network whitelist) and go straight to the
Stellar builder; every failure surfaces through the outer catch as 500. -/
def a2uSubmitV1 (getRes : Except PiErr PaymentDTO) (ledger : LedgerOracle) (seed paymentId : String) :
    List Call × Except (ℕ × String) (String × String) :=
  match getRes with
  | .error e => ([Call.getP paymentId], .error (edgeErrResp e))
  | .ok pd =>
    let t := buildAndSubmitA2U ledger pd seed
    match t.2 with
    | .error m => (Call.getP paymentId :: t.1, .error (500, m))
    | .ok txid => (Call.getP paymentId :: t.1, .ok (txid, paymentId))

/-- Environment of the second a2u_submit version. -/
structure SubmitOracleV2 where
  getRes : ℕ → Except PiErr PaymentDTO
  ledger : LedgerOracle
  walletSeed : String
  now : String

/-- The a2u_submit action of the second edge-function version: fetch the
payment with the bounded retry (5 attempts, 2000 ms), reject any network
outside supportedNetworks with a 400 response before touching the ledger,
then build and submit on-chain and persist the submitted row via the safe
upsert (which stamps updated_at). -/
def a2uSubmitV2 (o : SubmitOracleV2) (paymentId : String) :
    List Call × Except (ℕ × String) (String × String) :=
  let g := getPaymentWithRetry o.getRes paymentId 5 2000
  match g.2 with
  | .error e => (g.1, .error (edgeErrResp e))
  | .ok pd =>
    if !(supportedNetworks.contains pd.network) then
      (g.1, .error (400, "A2U payouts are not supported on network: " ++ pd.network))
    else
      let t := buildAndSubmitA2U o.ledger pd o.walletSeed
      match t.2 with
      | .error m => (g.1 ++ t.1, .error (500, m))
      | .ok txid =>
        let payload : A2URecord :=
          { payment_id := paymentId, amount := some (some pd.amount), memo := some pd.identifier,
            txid := some txid, status := "submitted", updated_at := some o.now }
        (g.1 ++ t.1 ++ [Call.upsert payload "payment_id"], .ok (txid, paymentId))

/-- The updated_at stamp safeUpsertA2UPayout applies to every payload. -/
def stampUpdated (now : String) (r : A2URecord) : A2URecord := { r with updated_at := some now }

/-- safeUpsertA2UPayout (src/unnamed/part_002): stamp updated_at, upsert
keyed by payment_id, and swallow any failure of the store write (both the
in-band error object and a thrown failure are only logged). -/
def safeUpsertA2UPayout (store : A2URecord → Except String Unit) (now : String)
    (record : A2URecord) : List Call × Except String Unit :=
  let payload := stampUpdated now record
  match store payload with
  | .ok _ => ([Call.upsert payload "payment_id"], .ok ())
  | .error _ => ([Call.upsert payload "payment_id"], .ok ())

/-- upsertA2U (src/server/index.js, with Supabase configured): a bare
upsert keyed by payment_id with the record exactly as supplied — no
updated_at stamp and no handler of its own, so a failing store write
propagates to the caller. -/
def upsertA2U (store : A2URecord → Except String Unit) (record : A2URecord) :
    List Call × Except String Unit :=
  ([Call.upsert record "payment_id"], store record)

/-- A remote payment on which all three steps succeed, used to instantiate
fixed gateways in concrete runs. -/
def happyPayment : PaymentDTO :=
  { identifier := "p1", user_uid := "u1", amount := 1, memo := "test payout",
    from_address := "GFROM", to_address := "GTO", network := "Pi Testnet",
    transaction := some { txid := "t1", verified := true } }

/-- A gateway on which every step succeeds: no stale payments, create
yields p1, submit yields t1, complete returns the completed payment. -/
def happyOracle : ExpressOracle :=
  { incompleteRes := .ok []
  , createRes := fun _ _ _ => .ok "p1"
  , submitRes := fun _ => .ok "t1"
  , completeRes := fun _ _ => .ok happyPayment
  , cancelRes := fun _ => .ok happyPayment
  , upsertRes := fun _ => .ok () }

/-- The example request of the specification: recipient u1, amount 0.01,
memo "test payout". -/
def cBody : WithdrawBody := { uid := "u1", amount := JSVal.vNum (some (1/100)), memo := "test payout" }

/-- A valid request with the integral amount 1, used for runs settled by
evaluation. -/
def dBody : WithdrawBody := { uid := "u1", amount := JSVal.vNum (some 1), memo := "test payout" }

/-- A gateway where create succeeds and the on-chain submit step fails. -/
def c1Oracle : ExpressOracle :=
  { happyOracle with submitRes := fun _ => .error { message := "submit failed", status := some 500 } }

/-- A stale raw payment carrying only an identifier. -/
def stuckObj : PaymentObj := { identifier := some "pStuck" }

/-- A create failure whose payload reports ongoing_payment_found and
identifies the stuck payment pStuck. -/
def c3Err : PiErr :=
  { message := "Pi API failed (400)", status := some 400,
    dataError := some "ongoing_payment_found", dataPayment := some stuckObj }

/-- A gateway whose create fails with the ongoing-payment conflict. -/
def c3Oracle : ExpressOracle := { happyOracle with createRes := fun _ _ _ => .error c3Err }

/-- A stale payment that already has a transaction (txid tS). -/
def stale1 : PaymentDTO :=
  { identifier := "s1", user_uid := "u9", amount := 1, memo := "m", from_address := "GF",
    to_address := "GT", network := "Pi Testnet", transaction := some { txid := "tS", verified := true } }

/-- A stale payment with no transaction yet. -/
def stale2 : PaymentDTO :=
  { identifier := "s2", user_uid := "u9", amount := 1, memo := "m", from_address := "GF",
    to_address := "GT", network := "Pi Testnet", transaction := none }

/-- The happy gateway with two stale payments to reconcile. -/
def c2WOracle : ExpressOracle := { happyOracle with incompleteRes := .ok [stale1, stale2] }

/-- A raw stale payment with identifier p0 and a transaction (txid t0). -/
def c2Obj0 : PaymentObj := { identifier := some "p0", transaction := some { txid := "t0", verified := true } }

/-- A second raw stale payment, identifier p1x, no transaction. -/
def c2Obj1 : PaymentObj := { identifier := some "p1x" }

/-- The payment object returned by a successful create. -/
def createdObj : PaymentObj := { identifier := some "pNew" }

/-- A valid a2u_create payload: amount 1, uid u1, memo hello. -/
def eBody : EdgeBody := { amount := some 1, uid := "u1", memo := "hello" }

/-- Edge gateway with the two stale raw payments and successful creates. -/
def c2OracleA : EdgeOracle :=
  { incompleteRes := .ok [c2Obj0, c2Obj1], cancelRes := fun _ => .ok (),
    create1 := .ok createdObj, create2 := .ok createdObj, now := "2026-01-01T00:00:00.000Z" }

/-- Same as c2OracleA but the cleanup cancel fails. -/
def c2OracleB : EdgeOracle :=
  { c2OracleA with cancelRes := fun _ => .error ({ message := "cancel failed" } : PiErr) }

/-- The fatal error of a second create conflict. -/
def e2x : PiErr := { message := "Pi API failed (400) again", status := some 400 }

/-- Edge gateway for the conflict-retry run: no stale payments, first
create hits the conflict identifying pStuck, the targeted cancel succeeds,
the retried create fails again. -/
def c3EdgeOracle : EdgeOracle :=
  { incompleteRes := .ok [], cancelRes := fun _ => .ok (),
    create1 := .error c3Err, create2 := .error e2x, now := "2026-01-01T00:00:00.000Z" }

/-- The example payment arguments for the service flow. -/
def req0 : PaymentArgs := { amount := 1, memo := "test payout", uid := "u1" }

/-- Service gateway: create succeeds with p1, submit fails, the best-effort
cancel itself also fails (its outcome must be swallowed). -/
def c1SvcOracle : SvcOracle :=
  { incompleteRes := .ok []
  , createRes := fun _ => .ok "p1"
  , submitRes := fun _ => .error "boom"
  , completeRes := fun _ _ => .ok happyPayment
  , cancelRes := fun _ => .error "cancel also fails" }

/-- Service gateway: create and submit succeed, complete fails. -/
def c1SvcOracleB : SvcOracle :=
  { c1SvcOracle with
    submitRes := fun _ => .ok "t1"
    completeRes := fun _ _ => .error "complete failed" }

/-- A ledger node that accepts everything; the derived public key is GA. -/
def cexLedger : LedgerOracle :=
  { derivePub := fun _ => "GA"
  , loadAccountRes := fun _ _ => .ok { accountId := "GA", sequence := 7 }
  , baseFeeRes := fun _ => .ok 100
  , timeboundsRes := fun _ _ => .ok (0, 180)
  , submitTxRes := fun _ _ => .ok { hash := some "tH", id := some "tH" } }

/-- A payment whose network name Sandbox has no endpoint mapping. -/
def cexPayment : PaymentDTO :=
  { identifier := "p9", user_uid := "u9", amount := 1, memo := "m", from_address := "GA",
    to_address := "GB", network := "Sandbox", transaction := none }

/-- A ledger node whose derived public key is GPUB. -/
def mmLedger : LedgerOracle :=
  { cexLedger with derivePub := fun _ => "GPUB" }

/-- A payment whose from_address differs from the derived public key. -/
def mmPayment : PaymentDTO :=
  { identifier := "p8", user_uid := "u8", amount := 1, memo := "m", from_address := "GOTHER",
    to_address := "GB", network := "Pi Testnet", transaction := none }

/-- A payment on the unmapped network Foo, for the a2u_submit guard. -/
def pdFoo : PaymentDTO :=
  { identifier := "p7", user_uid := "u7", amount := 1, memo := "m", from_address := "GA",
    to_address := "GB", network := "Foo", transaction := none }

/-- Environment of the second a2u_submit version whose payment read
returns the Foo-network payment at the first attempt. -/
def c6WOracle : SubmitOracleV2 :=
  { getRes := fun _ => .ok pdFoo, ledger := cexLedger, walletSeed := "SEED",
    now := "2026-01-01T00:00:00.000Z" }

/-- The not-found error every read attempt returns while the remote record
is not yet visible. -/
def e404 : PiErr := { message := "Pi API failed (404)", status := some 404 }

/-- A payment read that never becomes visible. -/
def gW : ℕ → Except PiErr PaymentDTO := fun _ => .error e404

/-- A minimal payout row, as the Express server upserts it. -/
def c9rec : A2URecord := { payment_id := "p1", status := "created" }

/-- No cleanup call writes to the status ledger. -/
theorem upsertsIn_cleanupCalls (ps : List PaymentDTO) : upsertsIn (cleanupCalls ps) = [] := by
  induction ps with
  | nil => rfl
  | cons p t ih =>
    rw [cleanupCalls, List.map_cons, upsertsIn, List.filterMap_cons]
    have h1 : (match cleanupCall p with | Call.upsert r _ => some r | _ => none)
        = (none : Option A2URecord) := by
      unfold cleanupCall
      cases p.transaction with
      | none => rfl
      | some tx => by_cases hx : tx.txid = "" <;> simp [hx]
    rw [h1]
    exact ih

/-- The payout tail always begins with the create call. -/
theorem withdrawTail_trace_head (o : ExpressOracle) (a : JSNum) (memo uid : String) :
    ∃ rest, (withdrawTail o a memo uid).1 = Call.createP a memo uid :: rest := by
  unfold withdrawTail
  dsimp only
  repeat' split
  all_goals exact ⟨_, rfl⟩

/-- A successful read ends the retry loop at once. -/
theorem retryGo_ok (g : ℕ → Except PiErr PaymentDTO) (pid : String) (d n a : ℕ) (p : PaymentDTO)
    (h : g a = .ok p) : retryGo g pid d (n + 1) a = ([Call.getP pid], .ok p) := by
  simp [retryGo, h]

/-- The final allowed attempt rethrows its own read error. -/
theorem retryGo_last (g : ℕ → Except PiErr PaymentDTO) (pid : String) (d a : ℕ) (e : PiErr)
    (h : g a = .error e) : retryGo g pid d 1 a = ([Call.getP pid], .error e) := by
  simp [retryGo, h]

/-- A failed non-final attempt sleeps for the fixed delay and retries. -/
theorem retryGo_step (g : ℕ → Except PiErr PaymentDTO) (pid : String) (d n a : ℕ) (e : PiErr)
    (h : g a = .error e) (hn : n ≠ 0) :
    retryGo g pid d (n + 1) a =
      (Call.getP pid :: Call.sleepMs d :: (retryGo g pid d n (a + 1)).1,
        (retryGo g pid d n (a + 1)).2) := by
  simp [retryGo, h, hn]

/-- C10: the withdraw request with the non-numeric amount string abc
passes every validation check of the Express withdraw handler, because
Number of it is NaN and both the NaN comparisons are false and NaN is
only caught by the truthiness test when the raw value itself is falsy
(a nonempty string is truthy); the handler then issues the remote calls,
createPayment included, with amount NaN. -/
theorem c10_nan_amount_passes_validation :
    strToNumber "abc" = none ∧
    jsFalsy (JSVal.vStr "abc") = false ∧
    jsLeZero (strToNumber "abc") = false ∧
    jsGtOne (strToNumber "abc") = false ∧
    (expressWithdraw happyOracle { uid := "u1", amount := JSVal.vStr "abc", memo := "hello" }).2 =
      WResp.ok "p1" "t1" happyPayment ∧
    Call.createP none "hello" "u1" ∈
      (expressWithdraw happyOracle { uid := "u1", amount := JSVal.vStr "abc", memo := "hello" }).1 := by
  decide

/-- C4 counterexample: the first server variant validates only uid and
amount positivity, so the request with amount 5 (above the testnet cap
of 1) and an empty memo passes validation, the memo silently defaults to
"A2U payout", and the run issues the remote create call and succeeds —
the claim that every over-cap or empty-memo request fails with an
InvalidRequest error and zero remote calls is false for this handler. -/
theorem c4_counterexample :
    (1 : ℚ) < 5 ∧
    (expressWithdrawV1 happyOracle { uid := "u1", amount := JSVal.vNum (some 5), memo := "" }).2 =
      WResp.ok "p1" "t1" happyPayment ∧
    Call.createP (some 5) "A2U payout" "u1" ∈
      (expressWithdrawV1 happyOracle { uid := "u1", amount := JSVal.vNum (some 5), memo := "" }).1 := by
  decide

/-- C4 amended: in the main Express server (server/index.js) and in
PiNetworkService.validatePaymentData, a zero amount, an amount above the
testnet cap of 1, an empty recipient id and an empty memo each fail with
an invalid-request error before any external call (the handler trace is
empty and the validator is pure); the first server variant lacks the memo
and cap checks (see the counterexample). -/
theorem c4_amended (o : ExpressOracle) (uid memo : String) (q : ℚ)
    (hu : uid ≠ "") (hut : jsTrim uid ≠ "") (hm : memo ≠ "") (hmt : jsTrim memo ≠ "")
    (h0 : 0 < q) (h1 : 1 < q) :
    expressWithdraw o { uid := uid, amount := JSVal.vNum (some 0), memo := memo } =
      ([], WResp.err 400 "Invalid amount") ∧
    expressWithdraw o { uid := uid, amount := JSVal.vNum (some q), memo := memo } =
      ([], WResp.err 400 "Testnet payments cannot exceed 1 Pi") ∧
    expressWithdraw o { uid := "", amount := JSVal.vNum (some q), memo := memo } =
      ([], WResp.err 400 "Missing uid") ∧
    expressWithdraw o { uid := uid, amount := JSVal.vNum (some q), memo := "" } =
      ([], WResp.err 400 "Missing memo") ∧
    validatePaymentData { amount := 0, memo := memo, uid := uid } =
      .error "Amount must be greater than 0" ∧
    validatePaymentData { amount := q, memo := memo, uid := uid } =
      .error "Testnet payments cannot exceed 1 Pi" ∧
    validatePaymentData { amount := q, memo := memo, uid := "" } =
      .error "User UID is required" ∧
    validatePaymentData { amount := q, memo := "", uid := uid } =
      .error "Memo is required" := by
  have hqne : q ≠ 0 := ne_of_gt h0
  have hqle : ¬ q ≤ 0 := not_le.mpr h0
  have htrim0 : jsTrim "" = "" := by decide
  refine ⟨?_, ?_, ?_, ?_, ?_, ?_, ?_, ?_⟩
  · simp [expressWithdraw, jsFalsy, hu]
  · simp [expressWithdraw, jsFalsy, jsLeZero, jsGtOne, toNumber, hu, hm, hqne, hqle, h1]
  · simp [expressWithdraw]
  · simp [expressWithdraw, jsFalsy, jsLeZero, toNumber, hu, hqne, hqle]
  · simp [validatePaymentData]
  · simp [validatePaymentData, hqle, hut, hmt, h1]
  · simp [validatePaymentData, hqle, htrim0]
  · simp [validatePaymentData, hqle, hut, htrim0]

/-- C4 amended witness: the four invalid requests at a concrete gateway,
with uid u1, memo m and amount 2. -/
theorem c4_amended_witness :
    ("u1" : String) ≠ "" ∧ jsTrim "u1" ≠ "" ∧ ("m" : String) ≠ "" ∧ jsTrim "m" ≠ "" ∧
    (0 : ℚ) < 2 ∧ (1 : ℚ) < 2 ∧
    expressWithdraw happyOracle { uid := "u1", amount := JSVal.vNum (some 0), memo := "m" } =
      ([], WResp.err 400 "Invalid amount") ∧
    expressWithdraw happyOracle { uid := "u1", amount := JSVal.vNum (some 2), memo := "m" } =
      ([], WResp.err 400 "Testnet payments cannot exceed 1 Pi") := by
  have h := c4_amended happyOracle "u1" "m" 2 (by decide) (by decide) (by decide) (by decide)
    (by norm_num) (by norm_num)
  exact ⟨by decide, by decide, by decide, by decide, by norm_num, by norm_num, h.1, h.2.1⟩

/-- C5: when the public key derived from the configured wallet seed
differs from the payment from_address, buildAndSubmitA2U fails with the
address-mismatch error and its trace is empty — no account load, base-fee
fetch, timebounds fetch or transaction submit is issued. -/
theorem c5_address_mismatch (o : LedgerOracle) (payment : PaymentDTO) (seed : String)
    (h : payment.from_address ≠ o.derivePub seed) :
    buildAndSubmitA2U o payment seed =
      ([], .error (addressMismatchMsg payment.from_address (o.derivePub seed))) := by
  simp [buildAndSubmitA2U, h]

/-- C5 witness: a wallet resolving to GPUB against a payment from GOTHER. -/
theorem c5_address_mismatch_witness :
    ("GOTHER" : String) ≠ "GPUB" ∧
    buildAndSubmitA2U mmLedger mmPayment "SEED" =
      ([], .error (addressMismatchMsg "GOTHER" "GPUB")) :=
  ⟨by decide, c5_address_mismatch mmLedger mmPayment "SEED" (by decide)⟩

/-- C7: for the specification example request (uid u1, amount 0.01, memo
"test payout") against any gateway on which create, submit and complete
succeed (and whose store accepts writes), the Express withdraw handler
returns the payment id p1, the txid t1 and the completed payment, and its
trace carries exactly three status-ledger upserts, in order
created, submitted, completed. -/
theorem c7_happy_path (o : ExpressOracle) (ps : List PaymentDTO) (pay : PaymentDTO)
    (hinc : o.incompleteRes = .ok ps)
    (hcr : o.createRes (some (1/100)) "test payout" "u1" = .ok "p1")
    (hup : ∀ r, o.upsertRes r = .ok ())
    (hsub : o.submitRes "p1" = .ok "t1")
    (hcomp : o.completeRes "p1" "t1" = .ok pay) :
    (expressWithdraw o cBody).2 = WResp.ok "p1" "t1" pay ∧
    upsertsIn (expressWithdraw o cBody).1 =
      [{ payment_id := "p1", pi_uid := some "u1", amount := some (some (1/100)),
         memo := some "test payout", status := "created" },
       { payment_id := "p1", txid := some "t1", status := "submitted" },
       { payment_id := "p1", txid := some "t1", status := "completed" }] := by
  have hu : ¬ cBody.uid = "" := by decide
  have hm : ¬ cBody.memo = "" := by decide
  have hb1 : (jsFalsy cBody.amount || jsLeZero (toNumber cBody.amount)) = false := by
    show (jsFalsy (JSVal.vNum (some (1/100))) || jsLeZero (some (1/100) : JSNum)) = false
    simp only [jsFalsy, jsLeZero, Bool.or_eq_false_iff, decide_eq_false_iff_not]
    norm_num
  have hb2 : jsGtOne (toNumber cBody.amount) = false := by
    show jsGtOne (some (1/100) : JSNum) = false
    simp only [jsGtOne, decide_eq_false_iff_not]
    norm_num
  have hrun : expressWithdraw o cBody =
      (Call.listIncomplete :: (cleanupCalls ps ++ (withdrawTail o (some (1/100)) "test payout" "u1").1),
        (withdrawTail o (some (1/100)) "test payout" "u1").2) := by
    unfold expressWithdraw
    rw [if_neg hu, hb1, if_neg (by simp : ¬ (false = true)), if_neg hm, hb2,
      if_neg (by simp : ¬ (false = true)), hinc]
    rfl
  have htail : withdrawTail o (some (1/100)) "test payout" "u1" =
      ([Call.createP (some (1/100)) "test payout" "u1",
        Call.upsert { payment_id := "p1", pi_uid := some "u1", amount := some (some (1/100)),
                      memo := some "test payout", status := "created" } "payment_id",
        Call.sleepMs 1000, Call.submitP "p1",
        Call.upsert { payment_id := "p1", txid := some "t1", status := "submitted" } "payment_id",
        Call.completeP "p1" "t1",
        Call.upsert { payment_id := "p1", txid := some "t1", status := "completed" } "payment_id"],
        WResp.ok "p1" "t1" pay) := by
    simp only [withdrawTail, hcr, hup, hsub, hcomp]
  rw [hrun, htail]
  refine ⟨rfl, ?_⟩
  have hclean := upsertsIn_cleanupCalls ps
  simp only [upsertsIn, List.filterMap_cons, List.filterMap_append] at *
  simp [hclean]

/-- C7 witness: the example scenario at the all-success gateway. -/
theorem c7_happy_path_witness :
    happyOracle.incompleteRes = .ok [] ∧
    happyOracle.createRes (some (1/100)) "test payout" "u1" = .ok "p1" ∧
    happyOracle.submitRes "p1" = .ok "t1" ∧
    happyOracle.completeRes "p1" "t1" = .ok happyPayment ∧
    (expressWithdraw happyOracle cBody).2 = WResp.ok "p1" "t1" happyPayment ∧
    upsertsIn (expressWithdraw happyOracle cBody).1 =
      [{ payment_id := "p1", pi_uid := some "u1", amount := some (some (1/100)),
         memo := some "test payout", status := "created" },
       { payment_id := "p1", txid := some "t1", status := "submitted" },
       { payment_id := "p1", txid := some "t1", status := "completed" }] := by
  have h := c7_happy_path happyOracle [] happyPayment rfl rfl (fun _ => rfl) rfl rfl
  exact ⟨rfl, rfl, rfl, rfl, h.1, h.2⟩

/-- C1 counterexample: in the main Express withdraw flow, a run in which
create succeeded with p1 and the submit step then failed (no txid yet)
surfaces the submit error with zero cancel calls anywhere in its trace,
against the claimed exactly-one best-effort cancel of the just-created
payment. -/
theorem c1_counterexample :
    (expressWithdraw c1Oracle dBody).2 = WResp.err 500 "submit failed" ∧
    c1Oracle.createRes (some 1) "test payout" "u1" = .ok "p1" ∧
    Call.submitP "p1" ∈ (expressWithdraw c1Oracle dBody).1 ∧
    cancelsIn (expressWithdraw c1Oracle dBody).1 = [] := by
  decide

/-- C1 amended: in PiNetworkService.completeA2UPaymentFlow, a run whose
create succeeded (with a nonempty payment id) and whose submit step then
failed issues exactly one best-effort cancel of that payment, swallows the
cancellation outcome (the cancel oracle result is never consulted) and
surfaces the wrapped original error; and once submit returned a (nonempty)
txid, a failing complete step surfaces its error with no cancel call at
all.  The Express withdraw handler, by contrast, performs no
cancel-on-failure (see the counterexample). -/
theorem c1_amended (o : SvcOracle) (req : PaymentArgs) (pid : String)
    (hinc : o.incompleteRes = .ok []) (hcr : o.createRes req = .ok pid) (hpid : pid ≠ "") :
    (∀ e, o.submitRes pid = .error e →
        (completeA2UPaymentFlow o req).2 = .error ("Failed to submit payment: " ++ e) ∧
        cancelsIn (completeA2UPaymentFlow o req).1 = [pid]) ∧
    (∀ t e, t ≠ "" → o.submitRes pid = .ok t → o.completeRes pid t = .error e →
        (completeA2UPaymentFlow o req).2 = .error ("Failed to complete payment: " ++ e) ∧
        cancelsIn (completeA2UPaymentFlow o req).1 = []) := by
  constructor
  · intro e he
    constructor <;>
      simp [completeA2UPaymentFlow, svcCleanupTrace, hinc, hcr, he, hpid, cleanupCalls, cancelsIn]
  · intro t e ht hs hc
    have hcond : ¬ (pid ≠ "" ∧ t = "") := by simp [ht]
    constructor <;>
      simp [completeA2UPaymentFlow, svcCleanupTrace, hinc, hcr, hs, hc, hcond, cleanupCalls, cancelsIn]

/-- C1 amended witness: the service flow at a gateway whose submit fails
(and whose cancel itself fails, showing the swallow), and at a gateway
whose complete fails after txid t1 was obtained. -/
theorem c1_amended_witness :
    c1SvcOracle.incompleteRes = .ok [] ∧
    c1SvcOracle.createRes req0 = .ok "p1" ∧ ("p1" : String) ≠ "" ∧
    c1SvcOracle.submitRes "p1" = .error "boom" ∧
    c1SvcOracle.cancelRes "p1" = .error "cancel also fails" ∧
    ((completeA2UPaymentFlow c1SvcOracle req0).2 = .error ("Failed to submit payment: " ++ "boom") ∧
      cancelsIn (completeA2UPaymentFlow c1SvcOracle req0).1 = ["p1"]) ∧
    c1SvcOracleB.submitRes "p1" = .ok "t1" ∧
    c1SvcOracleB.completeRes "p1" "t1" = .error "complete failed" ∧
    ((completeA2UPaymentFlow c1SvcOracleB req0).2 =
        .error ("Failed to complete payment: " ++ "complete failed") ∧
      cancelsIn (completeA2UPaymentFlow c1SvcOracleB req0).1 = []) :=
  ⟨rfl, rfl, by decide, rfl, rfl,
    (c1_amended c1SvcOracle req0 "p1" rfl rfl (by decide)).1 "boom" rfl,
    rfl, rfl,
    (c1_amended c1SvcOracleB req0 "p1" rfl rfl (by decide)).2 "t1" "complete failed" (by decide) rfl rfl⟩

/-- C2 counterexample: the a2u_create cleanup of the second edge-function
version processes only the first stale payment and always cancels it —
here the first stale payment p0 carries txid t0 yet receives a cancel and
no complete call, the second stale payment p1x is not touched at all, and
when that one cancel fails the whole create attempt aborts with the
cleanup error instead of swallowing it. -/
theorem c2_counterexample :
    c2Obj0.transaction = some { txid := "t0", verified := true } ∧
    (edgeCreate c2OracleA eBody).1 =
      [Call.listIncomplete, Call.cancelP "p0", Call.createP (some 1) "hello" "u1",
       Call.upsert { payment_id := "pNew", pi_uid := some "u1", amount := some (some 1),
                     memo := some "hello", status := "created",
                     updated_at := some "2026-01-01T00:00:00.000Z" } "payment_id"] ∧
    completesIn (edgeCreate c2OracleA eBody).1 = [] ∧
    edgeCreate c2OracleB eBody =
      ([Call.listIncomplete, Call.cancelP "p0"], .error (400, "cancel failed")) := by
  decide

/-- C2 amended: in the Express withdraw flow, every stale payment returned
by the incomplete-payment listing receives its cleanup call — a complete
with its txid when its transaction carries one, a cancel otherwise — each
wrapped in its own try/catch whose outcome is never consulted, and the
flow then always proceeds to the create call: the trace continues with the
payout tail and the response is exactly the tail response, for every stale
list.  The a2u_create variant of the edge function behaves differently
(see the counterexample). -/
theorem c2_amended (o : ExpressOracle) (ps : List PaymentDTO) (b : WithdrawBody)
    (hu : b.uid ≠ "") (hf : jsFalsy b.amount = false) (hl : jsLeZero (toNumber b.amount) = false)
    (hm : b.memo ≠ "") (hg : jsGtOne (toNumber b.amount) = false)
    (hinc : o.incompleteRes = .ok ps) :
    (∀ p ∈ ps, (match p.transaction with
        | some t => if t.txid ≠ "" then Call.completeP p.identifier t.txid
                    else Call.cancelP p.identifier
        | none => Call.cancelP p.identifier) ∈ (expressWithdraw o b).1) ∧
    (∃ rest, (expressWithdraw o b).1 =
        Call.listIncomplete ::
          (cleanupCalls ps ++ (Call.createP (toNumber b.amount) b.memo b.uid :: rest))) ∧
    (expressWithdraw o b).2 = (withdrawTail o (toNumber b.amount) b.memo b.uid).2 := by
  have hrun : expressWithdraw o b =
      (Call.listIncomplete :: (cleanupCalls ps ++ (withdrawTail o (toNumber b.amount) b.memo b.uid).1),
        (withdrawTail o (toNumber b.amount) b.memo b.uid).2) := by
    unfold expressWithdraw
    rw [if_neg hu, hf, hl, if_neg (by simp : ¬ ((false || false) = true)), if_neg hm, hg,
      if_neg (by simp : ¬ (false = true)), hinc]
  obtain ⟨rest, hr⟩ := withdrawTail_trace_head o (toNumber b.amount) b.memo b.uid
  refine ⟨?_, ⟨rest, ?_⟩, ?_⟩
  · intro p hp
    show cleanupCall p ∈ (expressWithdraw o b).1
    rw [hrun]
    exact List.mem_cons_of_mem _ (List.mem_append_left _ (List.mem_map_of_mem _ hp))
  · rw [hrun, hr]
  · rw [hrun]

/-- C2 amended witness: a run with one stale payment carrying txid tS and
one without; the first is completed, the second cancelled, and the
response equals the payout-tail response. -/
theorem c2_amended_witness :
    c2WOracle.incompleteRes = .ok [stale1, stale2] ∧
    Call.completeP "s1" "tS" ∈ (expressWithdraw c2WOracle dBody).1 ∧
    Call.cancelP "s2" ∈ (expressWithdraw c2WOracle dBody).1 ∧
    (expressWithdraw c2WOracle dBody).2 =
      (withdrawTail c2WOracle (some 1) "test payout" "u1").2 := by
  have h := c2_amended c2WOracle [stale1, stale2] dBody (by decide) (by decide) (by decide)
    (by decide) (by decide) rfl
  exact ⟨rfl, h.1 stale1 (by decide), h.1 stale2 (by decide), h.2.2⟩

/-- C3 counterexample: the main Express withdraw flow performs no
conflict retry — when create fails with the ongoing_payment_found payload
identifying the stuck payment pStuck, the error is surfaced directly,
with exactly one create call, no cancel of pStuck and no second create. -/
theorem c3_counterexample :
    c3Err.dataError = some "ongoing_payment_found" ∧
    resolvePaymentId c3Err.dataPayment = "pStuck" ∧
    expressWithdraw c3Oracle dBody =
      ([Call.listIncomplete, Call.createP (some 1) "test payout" "u1"],
        WResp.err 400 "Pi API failed (400)") ∧
    createsCount (expressWithdraw c3Oracle dBody).1 = 1 ∧
    cancelsIn (expressWithdraw c3Oracle dBody).1 = [] := by
  decide

/-- C3 amended: in the a2u_create action of the edge function, when the
first create fails with a PiApiError whose payload is
ongoing_payment_found and identifies a stuck payment (a nonempty id
resolves) and the targeted cancel succeeds, the flow cancels exactly that
payment and retries create exactly once — two create calls in total — and
the outcome of the retry is final: a second failure is surfaced to the
caller, a success returns the created payment.  The Express flow performs
no such retry (see the counterexample). -/
theorem c3_amended (o : EdgeOracle) (b : EdgeBody) (e1 : PiErr) (p : PaymentObj)
    (hfin : jsFinite b.amount = true) (hpos : jsLeZero b.amount = false)
    (huid : ¬ jsTrim b.uid = "") (hmemo : ¬ jsTrim b.memo = "")
    (hinc : o.incompleteRes = .ok [])
    (h1 : o.create1 = .error e1)
    (hapi : e1.isApi = true) (herr : e1.dataError = some "ongoing_payment_found")
    (hpay : e1.dataPayment = some p) (hstuck : resolvePaymentId (some p) ≠ "")
    (hcan : o.cancelRes (resolvePaymentId (some p)) = .ok ()) :
    cancelsIn (edgeCreate o b).1 = [resolvePaymentId (some p)] ∧
    createsCount (edgeCreate o b).1 = 2 ∧
    (∀ e2, o.create2 = .error e2 →
        (edgeCreate o b).2 = .error (if e2.isApi then 400 else 500, e2.message)) ∧
    (∀ d, o.create2 = .ok d → (edgeCreate o b).2 = .ok d) := by
  have hrun0 : edgeCreate o b = edgeCreatePhase o b [Call.listIncomplete] := by
    unfold edgeCreate
    rw [hfin, hpos, if_neg (by simp : ¬ ((!true || false) = true)), if_neg huid, if_neg hmemo,
      hinc]
  have hcond : (e1.isApi && e1.dataError == some "ongoing_payment_found"
      && e1.dataPayment.isSome) = true := by
    rw [hapi, herr, hpay]
    rfl
  cases h2 : o.create2 with
  | error e3 =>
    refine ⟨?_, ?_, ?_, ?_⟩
    · rw [hrun0]
      simp [edgeCreatePhase, h1, hapi, herr, hpay, hstuck, hcan, h2, cancelsIn]
    · rw [hrun0]
      simp [edgeCreatePhase, h1, hapi, herr, hpay, hstuck, hcan, h2, createsCount]
    · intro e2 he2
      injection he2 with h
      subst h
      rw [hrun0]
      simp [edgeCreatePhase, h1, hapi, herr, hpay, hstuck, hcan, h2, edgeErrResp]
    · intro d hd
      exact absurd hd (by simp)
  | ok d0 =>
    refine ⟨?_, ?_, ?_, ?_⟩
    · rw [hrun0]
      unfold edgeCreatePhase
      simp only [h1, h2]
      simp only [hapi, herr, hpay, Option.isSome_some, Bool.and_self, beq_self_eq_true,
        Bool.and_true, Bool.true_and, if_true, hcan]
      rw [if_pos hstuck]
      split <;> simp [cancelsIn]
    · rw [hrun0]
      unfold edgeCreatePhase
      simp only [h1, h2]
      simp only [hapi, herr, hpay, Option.isSome_some, Bool.and_self, beq_self_eq_true,
        Bool.and_true, Bool.true_and, if_true, hcan]
      rw [if_pos hstuck]
      split <;> simp [createsCount]
    · intro e2 he2
      exact absurd he2 (by simp)
    · intro d hd
      injection hd with h
      subst h
      rw [hrun0]
      unfold edgeCreatePhase
      simp only [h1, h2]
      simp only [hapi, herr, hpay, Option.isSome_some, Bool.and_self, beq_self_eq_true,
        Bool.and_true, Bool.true_and, if_true, hcan]
      rw [if_pos hstuck]
      split <;> simp

/-- C3 amended witness: the conflict run at a concrete edge gateway whose
retried create fails again — the stuck payment pStuck is cancelled, two
creates are issued, and the second conflict is surfaced as the result. -/
theorem c3_amended_witness :
    c3EdgeOracle.incompleteRes = .ok [] ∧
    c3EdgeOracle.create1 = .error c3Err ∧
    c3Err.dataError = some "ongoing_payment_found" ∧
    resolvePaymentId (some stuckObj) = "pStuck" ∧
    c3EdgeOracle.create2 = .error e2x ∧
    cancelsIn (edgeCreate c3EdgeOracle eBody).1 = ["pStuck"] ∧
    createsCount (edgeCreate c3EdgeOracle eBody).1 = 2 ∧
    (edgeCreate c3EdgeOracle eBody).2 = .error (400, "Pi API failed (400) again") := by
  have h := c3_amended c3EdgeOracle eBody c3Err stuckObj (by decide) (by decide) (by decide)
    (by decide) rfl rfl (by decide) (by decide) rfl (by decide) rfl
  refine ⟨rfl, rfl, by decide, by decide, rfl, ?_, h.2.1, ?_⟩
  · have := h.1
    simpa using this
  · have := h.2.2.1 e2x rfl
    simpa using this

/-- C6 counterexample: the network name Sandbox has no endpoint mapping
and is not in supportedNetworks, yet the endpoint selection silently falls
back to the Pi Testnet Horizon URL, and the first-version a2u_submit
(which has no network guard) proceeds to the ledger — loading the account
at the testnet endpoint — and succeeds instead of failing with an
unsupported-network error. -/
theorem c6_counterexample :
    HORIZON_URLS "Sandbox" = none ∧
    supportedNetworks.contains "Sandbox" = false ∧
    horizonUrlFor "Sandbox" = "https://api.testnet.minepi.com" ∧
    (a2uSubmitV1 (.ok cexPayment) cexLedger "SEED" "p9").2 = .ok ("tH", "p9") ∧
    Call.loadAccount "https://api.testnet.minepi.com" "GA" ∈
      (a2uSubmitV1 (.ok cexPayment) cexLedger "SEED" "p9").1 := by
  decide

/-- C6 amended: the second-version a2u_submit rejects any payment whose
network is outside supportedNetworks with a status-400 unsupported-network
response right after the payment read: its trace is the single read call,
with no account load, base-fee fetch, timebounds fetch, transaction submit
or upsert.  The first version and the shared endpoint selection instead
fall back silently to the Pi Testnet endpoint (see the counterexample). -/
theorem c6_amended (o : SubmitOracleV2) (pid : String) (pd : PaymentDTO)
    (hg : o.getRes 0 = .ok pd) (hn : supportedNetworks.contains pd.network = false) :
    a2uSubmitV2 o pid = ([Call.getP pid],
      .error (400, "A2U payouts are not supported on network: " ++ pd.network)) := by
  have hret : getPaymentWithRetry o.getRes pid 5 2000 = ([Call.getP pid], .ok pd) := by
    rw [getPaymentWithRetry, show (5 : ℕ) = 4 + 1 from rfl]
    exact retryGo_ok o.getRes pid 2000 4 0 pd hg
  have hn2 : pd.network ∉ supportedNetworks := by simpa using hn
  simp [a2uSubmitV2, hret, hn2]

/-- C6 amended witness: a payment on the unmapped network Foo is rejected
by the second-version a2u_submit before any ledger call. -/
theorem c6_amended_witness :
    c6WOracle.getRes 0 = .ok pdFoo ∧
    supportedNetworks.contains pdFoo.network = false ∧
    a2uSubmitV2 c6WOracle "p7" = ([Call.getP "p7"],
      .error (400, "A2U payouts are not supported on network: " ++ pdFoo.network)) :=
  ⟨rfl, by decide, c6_amended c6WOracle "p7" pdFoo rfl (by decide)⟩

/-- C8: when every read of the remote payment fails (the record is not yet
visible), getPaymentWithRetry with the source defaults performs exactly
five read attempts with a fixed 2000 ms sleep between consecutive
attempts, issues no other call (in particular it never retries the
on-chain submission), and after the fifth failed attempt fails with the
final read error — the not-found error of the last attempt — rather than
retrying further. -/
theorem c8_bounded_retry (g : ℕ → Except PiErr PaymentDTO) (pid : String) (e : PiErr)
    (h : ∀ k, k < 5 → g k = .error e) :
    getPaymentWithRetry g pid 5 2000 =
      ([Call.getP pid, Call.sleepMs 2000, Call.getP pid, Call.sleepMs 2000, Call.getP pid,
        Call.sleepMs 2000, Call.getP pid, Call.sleepMs 2000, Call.getP pid], .error e) := by
  have h0 := h 0 (by norm_num)
  have h1 := h 1 (by norm_num)
  have h2 := h 2 (by norm_num)
  have h3 := h 3 (by norm_num)
  have h4 := h 4 (by norm_num)
  simp [getPaymentWithRetry, retryGo, h0, h1, h2, h3, h4]

/-- C8 witness: the retry helper against a payment that never becomes
visible, every read failing with the 404 error. -/
theorem c8_bounded_retry_witness :
    gW 0 = .error e404 ∧ gW 4 = .error e404 ∧
    getPaymentWithRetry gW "p1" 5 2000 =
      ([Call.getP "p1", Call.sleepMs 2000, Call.getP "p1", Call.sleepMs 2000, Call.getP "p1",
        Call.sleepMs 2000, Call.getP "p1", Call.sleepMs 2000, Call.getP "p1"], .error e404) :=
  ⟨rfl, rfl, c8_bounded_retry gW "p1" e404 (fun _ _ => rfl)⟩

/-- C9 counterexample: the Express upsertA2U writes the record exactly as
supplied — the payload of its one store call carries no updatedAt stamp —
and it contains no handler of its own, so a failing store write surfaces
to its caller instead of being logged and swallowed. -/
theorem c9_counterexample :
    upsertA2U (fun _ => .error "store outage") c9rec =
      ([Call.upsert c9rec "payment_id"], .error "store outage") ∧
    c9rec.updated_at = none := by
  decide

/-- C9 amended: safeUpsertA2UPayout upserts keyed by payment_id, stamps
updated_at on every write while leaving the supplied fields intact, and
returns successfully whatever the store outcome — a store outage never
surfaces to its caller.  The Express upsertA2U stamps nothing and
propagates store failures (see the counterexample). -/
theorem c9_amended (store : A2URecord → Except String Unit) (now : String) (r : A2URecord) :
    safeUpsertA2UPayout store now r = ([Call.upsert (stampUpdated now r) "payment_id"], .ok ()) ∧
    (stampUpdated now r).updated_at = some now ∧
    (stampUpdated now r).payment_id = r.payment_id ∧
    (stampUpdated now r).status = r.status ∧
    (stampUpdated now r).txid = r.txid := by
  refine ⟨?_, rfl, rfl, rfl, rfl⟩
  unfold safeUpsertA2UPayout
  cases h : store (stampUpdated now r) <;> simp [h]
